import Mathlib

/-!
Verification development for the qwickapps react-framework lint-fixer scripts
(src/fix-lint-auto.py, src/fix-lint-comprehensive.py, src/fix-lint.py).

The scripts are regex-driven text rewriters.  We embed each regular-expression
substitution as an executable function on lists of characters, mirroring the
semantics of Python re.sub: scan for the leftmost match, emit the replacement,
resume immediately after the matched span, never rescanning replacement text.
Character classes are modelled at the ASCII level, which covers every pattern
and input exercised by these scripts.
-/

/-- Python regex word character (ASCII range): [A-Za-z0-9_]. -/
def isWordC (c : Char) : Bool :=
  c.isAlpha || c.isDigit || c == '_'

/-- Python regex whitespace character (ASCII range): space, tab, newline,
carriage return, vertical tab, form feed. -/
def isWsC (c : Char) : Bool :=
  c == ' ' || c == '\t' || c == '\n' || c == '\r' || c == '\x0b' || c == '\x0c'

/-- The character class [ \t] used by the dynamic-require pattern. -/
def isIndentC (c : Char) : Bool :=
  c == ' ' || c == '\t'

/-- needle is a prefix of hay (Boolean, executable). -/
def startsSeq : List Char → List Char → Bool
  | [], _ => true
  | _ :: _, [] => false
  | a :: as, b :: bs => a == b && startsSeq as bs

/-- needle occurs as a contiguous subsequence of hay (Boolean, executable). -/
def containsSeq (needle : List Char) : List Char → Bool
  | [] => startsSeq needle []
  | c :: t => startsSeq needle (c :: t) || containsSeq needle t

/-- needle is a suffix of hay (Boolean, executable). -/
def endsSeq (needle hay : List Char) : Bool :=
  startsSeq needle.reverse hay.reverse

/-- Python "sub in s" on strings. -/
def pyInS (sub s : String) : Bool :=
  containsSeq sub.data s.data

/-- Python s.startswith(pre). -/
def startsWithS (s pre : String) : Bool :=
  startsSeq pre.data s.data

/-- Python s.endswith(suf). -/
def endsWithS (s suf : String) : Bool :=
  endsSeq suf.data s.data

/-- Python str.strip() on a character list (ASCII whitespace). -/
def pyStripL (l : List Char) : List Char :=
  ((l.dropWhile isWsC).reverse.dropWhile isWsC).reverse

/-- Python str.strip() on strings. -/
def pyStrip (s : String) : String :=
  String.mk (pyStripL s.data)

/-- Splitting on a single separator character, Python str.split(sep) semantics:
separators delimit fields, empty fields are kept, the empty string gives
one empty field. -/
def splitChA (sep : Char) (cur : List Char) : List Char → List (List Char)
  | [] => [cur.reverse]
  | c :: t => if c == sep then cur.reverse :: splitChA sep [] t else splitChA sep (c :: cur) t

/-- Python s.split(sep) for a one-character separator. -/
def pySplitCh (sep : Char) (s : String) : List String :=
  (splitChA sep [] s.data).map String.mk

/-- Python content.split. -/
def pySplitNl (s : String) : List String :=
  pySplitCh '\n' s

/-- Python str.split() with no argument: split on whitespace runs, no empty
fields. -/
def splitWsA (cur : List Char) : List Char → List (List Char)
  | [] => if cur.isEmpty then [] else [cur.reverse]
  | c :: t =>
    if isWsC c then
      if cur.isEmpty then splitWsA [] t else cur.reverse :: splitWsA [] t
    else splitWsA (c :: cur) t

/-- Python s.split() on strings. -/
def pySplitWs (s : String) : List String :=
  (splitWsA [] s.data).map String.mk

/-- The inverse of split: Python chr.join(lines) for a newline separator. -/
def joinNlL : List String → String
  | [] => ""
  | [x] => x
  | x :: xs => x ++ "\n" ++ joinNlL xs

/-- Decimal digit accumulation for Python int(). -/
def digitsValA (acc : Nat) : List Char → Option Nat
  | [] => some acc
  | c :: t => if c.isDigit then digitsValA (acc * 10 + (c.toNat - 48)) t else none

/-- Value of a nonempty all-digit character list. -/
def digitsVal : List Char → Option Nat
  | [] => none
  | c :: t => if c.isDigit then digitsValA (c.toNat - 48) t else none

/-- Python int(s): optional surrounding whitespace, optional sign, decimal
digits; none models the ValueError raised on malformed input. -/
def pyIntOf (s : String) : Option Int :=
  match pyStripL s.data with
  | '-' :: r => (digitsVal r).map (fun n => -(n : Int))
  | '+' :: r => (digitsVal r).map (fun n => (n : Int))
  | r => (digitsVal r).map (fun n => (n : Int))

/-- Python str.lower() (ASCII). -/
def lowerS (s : String) : String :=
  String.mk (s.data.map Char.toLower)

/-- Python pathlib Path(p).name: the part after the last slash. -/
def baseName (p : String) : String :=
  String.mk ((p.data.reverse.takeWhile (fun c => !(c == '/'))).reverse)

/-- True when the list is empty or its head is not a word character: the
position right after a word character is then a regex word boundary. -/
def notWordAfter : List Char → Bool
  | [] => true
  | c :: _ => !isWordC c

/-- True when the previous character exists and is a word character. -/
def prevIsWord : Option Char → Bool
  | some c => isWordC c
  | none => false

/-- Last character of the span c :: l (used to carry the character preceding
the scan position across a replacement). -/
def lastOfD (c : Char) (l : List Char) : Char :=
  l.getLastD c

/-- Driver for re.sub.  A matcher receives the character preceding the current
position (for word boundaries) and the text from the current position; on
success it returns the replacement and the total number of characters matched
(always at least one for the patterns modelled here).  The driver scans left
to right, copies unmatched characters, and after a match resumes right after
the matched span.  The skip counter makes the recursion structural. -/
def reSubGo (m : Option Char → List Char → Option (List Char × Nat)) :
    List Char → Option Char → Nat → List Char
  | [], _, _ => []
  | _ :: cs, prev, Nat.succ k => reSubGo m cs prev k
  | c :: cs, prev, 0 =>
    match m prev (c :: cs) with
    | some (rep, n) => rep ++ reSubGo m cs (some (lastOfD c (cs.take (n - 1)))) (n - 1)
    | none => c :: reSubGo m cs (some c) 0

/-- re.sub over a character list. -/
def reSubL (m : Option Char → List Char → Option (List Char × Nat)) (l : List Char) : List Char :=
  reSubGo m l none 0

/-- re.sub over a string. -/
def reSubS (m : Option Char → List Char → Option (List Char × Nat)) (s : String) : String :=
  String.mk (reSubL m s.data)

namespace FixLintAuto

/-- src/fix-lint-auto.py Fix 1: the pattern \b(\w+)\s*:\s*any\b with
replacement "\1: unknown".  Note there is no lookahead excluding "any[]"
in this script. -/
def matchAnyAuto (prev : Option Char) (s : List Char) : Option (List Char × Nat) :=
  if prevIsWord prev then none
  else
    let w := s.takeWhile isWordC
    if w.isEmpty then none
    else
      let s1 := s.dropWhile isWordC
      let k1 := (s1.takeWhile isWsC).length
      let s2 := s1.dropWhile isWsC
      if startsSeq (":").data s2 then
        let s3 := s2.drop 1
        let k2 := (s3.takeWhile isWsC).length
        let s4 := s3.dropWhile isWsC
        if startsSeq ("any").data s4 && notWordAfter (s4.drop 3) then
          some (w ++ (": unknown").data, w.length + k1 + 1 + k2 + 3)
        else none
      else none

/-- src/fix-lint-auto.py Fix 3: the pattern //\s*@ts-ignore\b with the
literal replacement "// @ts-expect-error". -/
def matchTsIgnore (_prev : Option Char) (s : List Char) : Option (List Char × Nat) :=
  if startsSeq ("//").data s then
    let s2 := s.drop 2
    let k := (s2.takeWhile isWsC).length
    let s3 := s2.dropWhile isWsC
    if startsSeq ("@ts-ignore").data s3 && notWordAfter (s3.drop 10) then
      some (("// @ts-expect-error").data, 2 + k + 10)
    else none
  else none

/-- Largest index at most i at which needle starts in l (backtracking search
for a greedy .* followed by a literal). -/
def lastStartAux (needle l : List Char) : Nat → Option Nat
  | 0 => if startsSeq needle l then some 0 else none
  | i + 1 => if startsSeq needle (l.drop (i + 1)) then some (i + 1) else lastStartAux needle l i

/-- Largest index at which needle starts in l. -/
def lastStartOf (needle l : List Char) : Option Nat :=
  lastStartAux needle l l.length

/-- For the pattern const .* = require\('.*'\); — at split index i, checks
that " = require('" follows and that "');" occurs later on the line; returns
(i, j) where j locates the last "');". -/
def reqCheck (l : List Char) (i : Nat) : Option (Nat × Nat) :=
  if startsSeq (" = require(\x27").data (l.drop i) then
    match lastStartOf ("\x27);").data (l.drop (i + 12)) with
    | some j => some (i, j)
    | none => none
  else none

/-- Greedy choice of the first .* in the dynamic-require pattern: the largest
split index for which the rest of the pattern matches. -/
def reqSearch (l : List Char) : Nat → Option (Nat × Nat)
  | 0 => reqCheck l 0
  | i + 1 =>
    match reqCheck l (i + 1) with
    | some r => some r
    | none => reqSearch l i

/-- src/fix-lint-auto.py Fix 4: the pattern
([ \t]*)(const .* = require\('.*'\);) with replacement
"\1// eslint-disable-next-line @typescript-eslint/no-var-requires\n\1\2".
Dots do not match newlines, so the statement lies on one line; both .* are
greedy, hence the backwards searches. -/
def matchRequire (_prev : Option Char) (s : List Char) : Option (List Char × Nat) :=
  let ind := s.takeWhile isIndentC
  let s1 := s.dropWhile isIndentC
  if startsSeq ("const ").data s1 then
    let lineRest := (s1.drop 6).takeWhile (fun c => !(c == '\n'))
    match reqSearch lineRest lineRest.length with
    | some (i, j) =>
      let a := lineRest.take i
      let b := (lineRest.drop (i + 12)).take j
      let stmt := ("const ").data ++ a ++ (" = require(\x27").data ++ b ++ ("\x27);").data
      some (ind ++ ("// eslint-disable-next-line @typescript-eslint/no-var-requires").data
              ++ ('\n' :: ind) ++ stmt,
            ind.length + stmt.length)
    | none => none
  else none

/-- Fix 1 as a whole-text substitution. -/
def subAnyAuto (s : String) : String := reSubS matchAnyAuto s

/-- Fix 3 as a whole-text substitution. -/
def subTsIgnore (s : String) : String := reSubS matchTsIgnore s

/-- Fix 4 as a whole-text substitution. -/
def subRequire (s : String) : String := reSubS matchRequire s

/-- src/fix-lint-auto.py fix_file, pure part: the three substitutions in
declared order (Fix 2 is a no-op in the source). -/
def applyAuto (c : String) : String :=
  subRequire (subTsIgnore (subAnyAuto c))

/-- Outcome of processing one file: the boolean the fixer returns, the
content written (if any), and the stderr diagnostic (if any). -/
structure FileOutcome where
  retFixed : Bool
  write : Option String
  errMsg : Option String
deriving DecidableEq, Repr

/-- src/fix-lint-auto.py fix_file including its try/except: a read failure is
reported on stderr with the file path and yields False with no write;
otherwise the rewritten text is written back only when it differs. -/
def fixFileAuto (fp : String) (r : Except String String) : FileOutcome :=
  match r with
  | Except.error e => ⟨false, none, some ("Error processing " ++ fp ++ ": " ++ e)⟩
  | Except.ok c =>
    let c2 := applyAuto c
    if c2 = c then ⟨false, none, none⟩ else ⟨true, some c2, none⟩

/-- The per-run outcomes of src/fix-lint-auto.py main over a list of
(path, read result) pairs. -/
def runAuto (files : List (String × Except String String)) : List FileOutcome :=
  files.map (fun pr => fixFileAuto pr.1 pr.2)

/-- The writes performed in one run of src/fix-lint-auto.py main. -/
def runAutoWrites (files : List (String × Except String String)) : List (String × String) :=
  files.filterMap (fun pr => (fixFileAuto pr.1 pr.2).write.map (fun w => (pr.1, w)))

/-- src/fix-lint-auto.py main, exclusion filter: test and story files are
skipped by filename substring. -/
def excludedAuto (name : String) : Bool :=
  pyInS ".test." name || pyInS ".stories." name || pyInS "__tests__" name

/-- src/fix-lint-auto.py main, per-file step: excluded files are skipped
before any read, everything else goes through fix_file. -/
def processFileAuto (name : String) (r : Except String String) : Option FileOutcome :=
  if excludedAuto name then none else some (fixFileAuto name r)

end FixLintAuto


namespace FixLintComprehensive

/-- src/fix-lint-comprehensive.py fix_any_types pattern 1:
\b(\w+)\s*:\s*any\b(?!\[\]) with replacement "\1: unknown" — function
parameters, with the negative lookahead excluding any[]. -/
def matchAnyP1 (prev : Option Char) (s : List Char) : Option (List Char × Nat) :=
  if prevIsWord prev then none
  else
    let w := s.takeWhile isWordC
    if w.isEmpty then none
    else
      let s1 := s.dropWhile isWordC
      let k1 := (s1.takeWhile isWsC).length
      let s2 := s1.dropWhile isWsC
      if startsSeq (":").data s2 then
        let s3 := s2.drop 1
        let k2 := (s3.takeWhile isWsC).length
        let s4 := s3.dropWhile isWsC
        if startsSeq ("any").data s4 && notWordAfter (s4.drop 3)
            && !startsSeq ("[]").data (s4.drop 3) then
          some (w ++ (": unknown").data, w.length + k1 + 1 + k2 + 3)
        else none
      else none

/-- Pattern 2: \):\s*any\b(?!\[\]) with replacement "): unknown" — return
types. -/
def matchAnyP2 (_prev : Option Char) (s : List Char) : Option (List Char × Nat) :=
  if startsSeq ("):").data s then
    let s2 := s.drop 2
    let k := (s2.takeWhile isWsC).length
    let s3 := s2.dropWhile isWsC
    if startsSeq ("any").data s3 && notWordAfter (s3.drop 3)
        && !startsSeq ("[]").data (s3.drop 3) then
      some (("): unknown").data, 2 + k + 3)
    else none
  else none

/-- Pattern 3: (type\s+\w+\s*=\s*)any\b with replacement "\1unknown" — type
aliases (no array lookahead in the source). -/
def matchAnyP3 (_prev : Option Char) (s : List Char) : Option (List Char × Nat) :=
  if startsSeq ("type").data s then
    let s1 := s.drop 4
    let ws1 := s1.takeWhile isWsC
    if ws1.isEmpty then none
    else
      let s2 := s1.dropWhile isWsC
      let w := s2.takeWhile isWordC
      if w.isEmpty then none
      else
        let s3 := s2.dropWhile isWordC
        let ws2 := s3.takeWhile isWsC
        let s4 := s3.dropWhile isWsC
        if startsSeq ("=").data s4 then
          let s5 := s4.drop 1
          let ws3 := s5.takeWhile isWsC
          let s6 := s5.dropWhile isWsC
          if startsSeq ("any").data s6 && notWordAfter (s6.drop 3) then
            some (("type").data ++ ws1 ++ w ++ ws2 ++ ('=' :: ws3) ++ ("unknown").data,
                  4 + ws1.length + w.length + ws2.length + 1 + ws3.length + 3)
          else none
        else none
  else none

/-- Pattern 4: the literal <any> replaced by <unknown> — generic arguments. -/
def matchAnyP4 (_prev : Option Char) (s : List Char) : Option (List Char × Nat) :=
  if startsSeq ("<any>").data s then some (("<unknown>").data, 5) else none

/-- Pattern 5: (\s+\w+\??\s*:\s*)any\b(?!\[\]) with replacement "\1unknown" —
object and interface property annotations. -/
def matchAnyP5 (_prev : Option Char) (s : List Char) : Option (List Char × Nat) :=
  let ws1 := s.takeWhile isWsC
  if ws1.isEmpty then none
  else
    let s1 := s.dropWhile isWsC
    let w := s1.takeWhile isWordC
    if w.isEmpty then none
    else
      let s2 := s1.dropWhile isWordC
      let q : List Char := if startsSeq ("?").data s2 then ['?'] else []
      let s3 := s2.drop q.length
      let ws2 := s3.takeWhile isWsC
      let s4 := s3.dropWhile isWsC
      if startsSeq (":").data s4 then
        let s5 := s4.drop 1
        let ws3 := s5.takeWhile isWsC
        let s6 := s5.dropWhile isWsC
        if startsSeq ("any").data s6 && notWordAfter (s6.drop 3)
            && !startsSeq ("[]").data (s6.drop 3) then
          some (ws1 ++ w ++ q ++ ws2 ++ (':' :: ws3) ++ ("unknown").data,
                ws1.length + w.length + q.length + ws2.length + 1 + ws3.length + 3)
        else none
      else none

/-- src/fix-lint-comprehensive.py fix_any_types: the five substitutions in
declared order. -/
def fixAnyTypes (c : String) : String :=
  reSubS matchAnyP5 (reSubS matchAnyP4 (reSubS matchAnyP3 (reSubS matchAnyP2 (reSubS matchAnyP1 c))))

/-- src/fix-lint-comprehensive.py fix_file including its try/except: only
fix_any_types is applied (fix_case_declarations is commented out); the result
is written back only when it differs, and a failure is reported on stderr
with the file path. -/
def fixFileComp (fp : String) (r : Except String String) : FixLintAuto.FileOutcome :=
  match r with
  | Except.error e => ⟨false, none, some ("Error fixing " ++ fp ++ ": " ++ e)⟩
  | Except.ok c =>
    let c2 := fixAnyTypes c
    if c2 = c then ⟨false, none, none⟩ else ⟨true, some c2, none⟩

/-- The per-run outcomes of src/fix-lint-comprehensive.py main. -/
def runComp (files : List (String × Except String String)) : List FixLintAuto.FileOutcome :=
  files.map (fun pr => fixFileComp pr.1 pr.2)

/-- The writes performed in one run of src/fix-lint-comprehensive.py main. -/
def runCompWrites (files : List (String × Except String String)) : List (String × String) :=
  files.filterMap (fun pr => (fixFileComp pr.1 pr.2).write.map (fun w => (pr.1, w)))

/-- src/fix-lint-comprehensive.py main, exclusion filter: matched against the
full path string str(filepath). -/
def excludedComp (path : String) : Bool :=
  pyInS "__tests__" path || pyInS ".test." path || pyInS ".stories." path

/-- src/fix-lint-comprehensive.py main, per-file step: excluded paths are
skipped before any read. -/
def processFileComp (path : String) (r : Except String String) : Option FixLintAuto.FileOutcome :=
  if excludedComp path then none else some (fixFileComp path r)

/-- Association-list update modelling Python dict assignment
errors_by_file[k] = v: an existing key keeps its position and gets the new
value, a new key is appended. -/
def updAssoc (k : String) (v : List String) : List (String × List String) → List (String × List String)
  | [] => [(k, v)]
  | (k2, v2) :: t => if k2 = k then (k2, v) :: t else (k2, v2) :: updAssoc k v t

/-- Association-list update modelling errors_by_file[k].append(v). -/
def appendAssoc (k : String) (v : String) : List (String × List String) → List (String × List String)
  | [] => []
  | (k2, v2) :: t => if k2 = k then (k2, v2 ++ [v]) :: t else (k2, v2) :: appendAssoc k v t

/-- One line of the parser loop in src/fix-lint-comprehensive.py
get_lint_errors: lines naming test or story files are dropped; a line that
starts with / and ends in .ts or .tsx becomes the current file and resets its
record list; otherwise, with a current file set, a line containing a colon
and the word error is appended (stripped) to the current file. -/
def compStep (st : Option String × List (String × List String)) (line : String) :
    Option String × List (String × List String) :=
  if pyInS "__tests__" line || pyInS ".test." line || pyInS ".stories." line then st
  else if startsWithS line "/" && (endsWithS line ".ts" || endsWithS line ".tsx") then
    (some (pyStrip line), updAssoc (pyStrip line) [] st.2)
  else
    match st.1 with
    | some cf =>
      if !(cf == "") && pyInS ":" line && pyInS "error" line then
        (st.1, appendAssoc cf (pyStrip line) st.2)
      else st
    | none => st

/-- src/fix-lint-comprehensive.py get_lint_errors over the combined output
lines (result.stdout.split plus result.stderr.split). -/
def getLintErrorsComp (lines : List String) : List (String × List String) :=
  (lines.foldl compStep (none, [])).2

end FixLintComprehensive


namespace FixLint

/-- A lint error record as built by src/fix-lint.py get_lint_errors:
the current file path, the first whitespace-separated token of the error
line (the line:column location), and the raw line text. -/
structure ErrRec where
  file : String
  location : String
  line : String
deriving DecidableEq, Repr

/-- One line of the parser loop in src/fix-lint.py get_lint_errors: a line
starting with /Users becomes the current file; otherwise, with a current
file set, a line containing the word error whose stripped form has at least
three whitespace-separated parts yields a record whose location is the first
part. -/
def getStep (st : Option String × List ErrRec) (line : String) : Option String × List ErrRec :=
  if startsWithS line "/Users" then (some (pyStrip line), st.2)
  else
    match st.1 with
    | some cf =>
      if !(cf == "") && pyInS "error" line then
        let parts := pySplitWs (pyStrip line)
        if 3 ≤ parts.length then (st.1, st.2 ++ [⟨cf, parts.headD "", line⟩]) else st
      else st
    | none => st

/-- src/fix-lint.py get_lint_errors over the combined output lines. -/
def getLintErrorsF (lines : List String) : List ErrRec :=
  (lines.foldl getStep (none, [])).2

/-- Pattern ,\s*screen removed. -/
def matchCommaScreen (_prev : Option Char) (s : List Char) : Option (List Char × Nat) :=
  if startsSeq (",").data s then
    let s2 := s.drop 1
    let k := (s2.takeWhile isWsC).length
    let s3 := s2.dropWhile isWsC
    if startsSeq ("screen").data s3 then some ([], 1 + k + 6) else none
  else none

/-- Pattern screen,\s* removed. -/
def matchScreenComma (_prev : Option Char) (s : List Char) : Option (List Char × Nat) :=
  if startsSeq ("screen,").data s then
    let k := ((s.drop 7).takeWhile isWsC).length
    some ([], 7 + k)
  else none

/-- Pattern ,\s*render removed. -/
def matchCommaRender (_prev : Option Char) (s : List Char) : Option (List Char × Nat) :=
  if startsSeq (",").data s then
    let s2 := s.drop 1
    let k := (s2.takeWhile isWsC).length
    let s3 := s2.dropWhile isWsC
    if startsSeq ("render").data s3 then some ([], 1 + k + 6) else none
  else none

/-- Pattern render,\s* removed. -/
def matchRenderComma (_prev : Option Char) (s : List Char) : Option (List Char × Nat) :=
  if startsSeq ("render,").data s then
    let k := ((s.drop 7).takeWhile isWsC).length
    some ([], 7 + k)
  else none

/-- Pattern container replaced by _container. -/
def matchContainer (_prev : Option Char) (s : List Char) : Option (List Char × Nat) :=
  if startsSeq ("container").data s then some (("_container").data, 9) else none

/-- Pattern ,\s*container:\s*_container removed. -/
def matchCommaContUCont (_prev : Option Char) (s : List Char) : Option (List Char × Nat) :=
  if startsSeq (",").data s then
    let s2 := s.drop 1
    let k1 := (s2.takeWhile isWsC).length
    let s3 := s2.dropWhile isWsC
    if startsSeq ("container:").data s3 then
      let s4 := s3.drop 10
      let k2 := (s4.takeWhile isWsC).length
      let s5 := s4.dropWhile isWsC
      if startsSeq ("_container").data s5 then some ([], 1 + k1 + 10 + k2 + 10) else none
    else none
  else none

/-- Pattern container:\s*_container,\s* removed. -/
def matchContUContComma (_prev : Option Char) (s : List Char) : Option (List Char × Nat) :=
  if startsSeq ("container:").data s then
    let s2 := s.drop 10
    let k1 := (s2.takeWhile isWsC).length
    let s3 := s2.dropWhile isWsC
    if startsSeq ("_container,").data s3 then
      let k2 := ((s3.drop 11).takeWhile isWsC).length
      some ([], 10 + k1 + 11 + k2)
    else none
  else none

/-- The two substitutions of the screen branch, applied in source order. -/
def subScreenLine (l : String) : String :=
  reSubS matchScreenComma (reSubS matchCommaScreen l)

/-- The two substitutions of the render branch. -/
def subRenderLine (l : String) : String :=
  reSubS matchRenderComma (reSubS matchCommaRender l)

/-- The substitution of the container branch. -/
def subContainerLine (l : String) : String :=
  reSubS matchContainer l

/-- The two substitutions of the _container branch. -/
def subUContainerLine (l : String) : String :=
  reSubS matchContUContComma (reSubS matchCommaContUCont l)

/-- Line number parsed from a location token: int(location.split(':')[0]). -/
def locLineNum (loc : String) : Option Int :=
  pyIntOf ((pySplitCh ':' loc).headD "")

/-- Python list indexing: a nonnegative index must be below the length, a
negative index counts from the end; none models IndexError. -/
def pyIdx (len : Nat) (i : Int) : Option Nat :=
  if 0 ≤ i then (if i < (len : Int) then some i.toNat else none)
  else if -(len : Int) ≤ i then some ((len : Int) + i).toNat else none

/-- One iteration of the error loop in src/fix-lint.py fix_unused_vars.
Errors not mentioning no-unused-vars are skipped; otherwise the location is
parsed (ValueError on junk aborts, as the source has no handler), the line at
line_num is read (Python index semantics), and the branch matching the error
message rewrites that single line and sets the modified flag — even when the
substitution does not change the line. -/
def stepErr (acc : Except String (List String × Bool)) (e : ErrRec) :
    Except String (List String × Bool) :=
  match acc with
  | Except.error err => Except.error err
  | Except.ok (lines, mod) =>
    if pyInS "no-unused-vars" e.line then
      match locLineNum e.location with
      | none => Except.error "ValueError"
      | some n =>
        let ln : Int := n - 1
        if ln < (lines.length : Int) then
          match pyIdx lines.length ln with
          | none => Except.error "IndexError"
          | some k =>
            match lines.get? k with
            | none => Except.error "IndexError"
            | some line =>
              if pyInS "\x27screen\x27 is defined but never used" e.line then
                Except.ok (lines.set k (subScreenLine line), true)
              else if pyInS "\x27render\x27 is defined but never used" e.line then
                Except.ok (lines.set k (subRenderLine line), true)
              else if pyInS "\x27container\x27 is assigned a value but never used" e.line then
                Except.ok (lines.set k (subContainerLine line), true)
              else if pyInS "\x27_container\x27 is assigned a value but never used" e.line then
                Except.ok (lines.set k (subUContainerLine line), true)
              else Except.ok (lines, mod)
        else Except.ok (lines, mod)
    else Except.ok (lines, mod)

/-- src/fix-lint.py fix_unused_vars at the level of the split line list. -/
def fixUnusedVarsLines (lines : List String) (errors : List ErrRec) :
    Except String (List String × Bool) :=
  errors.foldl stepErr (Except.ok (lines, false))

/-- src/fix-lint.py fix_unused_vars on file content: split on newlines, run
the error loop, and when the modified flag is set write back the joined
lines (first component: the content written, if any) and return True. -/
def fixUnusedVarsC (content : String) (errors : List ErrRec) :
    Except String (Option String × Bool) :=
  match fixUnusedVarsLines (pySplitNl content) errors with
  | Except.error e => Except.error e
  | Except.ok (ls, mod) =>
    if mod then Except.ok (some (joinNlL ls), true) else Except.ok (none, false)

/-- fix_unused_vars including the file read (open() has no surrounding
try/except, so a read failure propagates). -/
def fixUnusedVarsR (r : Except String String) (errors : List ErrRec) :
    Except String (Option String × Bool) :=
  match r with
  | Except.error e => Except.error e
  | Except.ok c => fixUnusedVarsC c errors

/-- Pattern :\s*any; with replacement ": unknown;". -/
def matchColonAnySemi (_prev : Option Char) (s : List Char) : Option (List Char × Nat) :=
  if startsSeq (":").data s then
    let s2 := s.drop 1
    let k := (s2.takeWhile isWsC).length
    let s3 := s2.dropWhile isWsC
    if startsSeq ("any;").data s3 then some ((": unknown;").data, 1 + k + 4) else none
  else none

/-- Pattern \)\s*as\s*any; with replacement ") as unknown;". -/
def matchParenAsAnySemi (_prev : Option Char) (s : List Char) : Option (List Char × Nat) :=
  if startsSeq (")").data s then
    let s2 := s.drop 1
    let k1 := (s2.takeWhile isWsC).length
    let s3 := s2.dropWhile isWsC
    if startsSeq ("as").data s3 then
      let s4 := s3.drop 2
      let k2 := (s4.takeWhile isWsC).length
      let s5 := s4.dropWhile isWsC
      if startsSeq ("any;").data s5 then some ((") as unknown;").data, 1 + k1 + 2 + k2 + 4)
      else none
    else none
  else none

/-- Pattern \(window as any\) with its literal replacement. -/
def matchWindowAsAny (_prev : Option Char) (s : List Char) : Option (List Char × Nat) :=
  if startsSeq ("(window as any)").data s then
    some (("(window as Window & typeof globalThis)").data, 15)
  else none

/-- src/fix-lint.py fix_any_types on file content: three conditional
whole-text substitutions; each condition is evaluated on the current
content; the file is written back only when some substitution changed it. -/
def fixAnyTypesF (content : String) : Option String × Bool :=
  let r1 :=
    if pyInS "mock" (lowerS content) || pyInS "Mock" content then
      let n := reSubS matchColonAnySemi content
      if n = content then (content, false) else (n, true)
    else (content, false)
  let r2 :=
    let n := reSubS matchParenAsAnySemi r1.1
    if n = r1.1 then r1 else (n, true)
  let r3 :=
    if pyInS "window" r2.1 then
      let n := reSubS matchWindowAsAny r2.1
      if n = r2.1 then r2 else (n, true)
    else r2
  if r3.2 then (some r3.1, true) else (none, false)

/-- fix_any_types including the file read (again no exception handler). -/
def fixAnyTypesR (r : Except String String) : Except String (Option String × Bool) :=
  match r with
  | Except.error e => Except.error e
  | Except.ok c => Except.ok (fixAnyTypesF c)

/-- Grouping of error records by file path, preserving the insertion order
of a Python dict. -/
def addGroup : List (String × List ErrRec) → ErrRec → List (String × List ErrRec)
  | [], e => [(e.file, [e])]
  | (k, v) :: t, e => if k = e.file then (k, v ++ [e]) :: t else (k, v) :: addGroup t e

/-- A simulated in-place file write. -/
def updFs (fs : String → Except String String) (fp c : String) : String → Except String String :=
  fun p => if p = fp then Except.ok c else fs p

/-- src/fix-lint.py main, body of the per-file loop: fix_unused_vars then
fix_any_types on the same path (the second call re-reads the possibly just
written file); each reports a message and counts when it returned True.
Exceptions propagate: there is no try/except anywhere in this script. -/
def processGroup (fs : String → Except String String) (fp : String) (errs : List ErrRec) :
    Except String ((String → Except String String) × List (String × String) × List String × Nat) :=
  match fixUnusedVarsR (fs fp) errs with
  | Except.error e => Except.error e
  | Except.ok (w1, b1) =>
    let fs1 := match w1 with | some c => updFs fs fp c | none => fs
    let ws1 : List (String × String) := match w1 with | some c => [(fp, c)] | none => []
    let ms1 : List String := if b1 then ["Fixed unused vars in " ++ baseName fp] else []
    let n1 : Nat := if b1 then 1 else 0
    match fixAnyTypesR (fs1 fp) with
    | Except.error e => Except.error e
    | Except.ok (w2, b2) =>
      let fs2 := match w2 with | some c => updFs fs1 fp c | none => fs1
      let ws2 : List (String × String) := match w2 with | some c => [(fp, c)] | none => []
      let ms2 : List String := if b2 then ["Fixed any types in " ++ baseName fp] else []
      let n2 : Nat := if b2 then 1 else 0
      Except.ok (fs2, ws1 ++ ws2, ms1 ++ ms2, n1 + n2)

/-- The per-file loop of src/fix-lint.py main over the grouped errors; an
exception from any file aborts the whole loop. -/
def runGroups (fs : String → Except String String) :
    List (String × List ErrRec) →
    Except String ((String → Except String String) × List (String × String) × List String × Nat)
  | [] => Except.ok (fs, [], [], 0)
  | (fp, errs) :: t =>
    match processGroup fs fp errs with
    | Except.error e => Except.error e
    | Except.ok (fs1, ws, ms, n) =>
      match runGroups fs1 t with
      | Except.error e => Except.error e
      | Except.ok (fs2, ws2, ms2, n2) => Except.ok (fs2, ws ++ ws2, ms ++ ms2, n + n2)

/-- The exit code, writes and console messages of one run of src/fix-lint.py
main over the captured lint-output lines and a simulated file system.  With
zero parsed errors it prints "No errors found!" and returns 0 at once. -/
structure MainRes where
  exitCode : Nat
  writes : List (String × String)
  msgs : List String
deriving DecidableEq, Repr

/-- src/fix-lint.py main. -/
def mainFix (lines : List String) (fs : String → Except String String) :
    Except String MainRes :=
  let errors := getLintErrorsF lines
  if errors.isEmpty then
    Except.ok ⟨0, [], ["Analyzing lint errors...", "No errors found!"]⟩
  else
    let groups := errors.foldl addGroup []
    match runGroups fs groups with
    | Except.error e => Except.error e
    | Except.ok (_, ws, ms, k) =>
      Except.ok ⟨0, ws,
        ["Analyzing lint errors...", "Found " ++ toString errors.length ++ " errors"]
          ++ ms ++ ["\nFixed issues in " ++ toString k ++ " files"]⟩

end FixLint


/-- The character preceding the scan position after passing over pre. -/
def prevOfEnd (pre : List Char) (prev : Option Char) : Option Char :=
  match pre.getLast? with
  | some c => some c
  | none => prev

/-- Every no-unused-vars record among errors carries a parseable 1-based
line number lying within a file of len lines. -/
def errsInRange (errors : List FixLint.ErrRec) (len : Nat) : Bool :=
  errors.all (fun e =>
    !(pyInS "no-unused-vars" e.line) ||
      (match FixLint.locLineNum e.location with
       | some n => decide (1 ≤ n ∧ n ≤ (len : Int))
       | none => false))

/-- No no-unused-vars record among errors reports the 1-based line i+1. -/
def notReported (errors : List FixLint.ErrRec) (i : Nat) : Bool :=
  errors.all (fun e =>
    !(pyInS "no-unused-vars" e.line) ||
      !(FixLint.locLineNum e.location == some ((i : Int) + 1)))

/-- Line list of a fix_unused_vars result (the input lines on an exception). -/
def resLines (r : Except String (List String × Bool)) (dflt : List String) : List String :=
  match r with
  | Except.ok (l, _) => l
  | Except.error _ => dflt


/-! ## Shared lemmas about the sequence primitives -/

theorem startsSeq_iff (n : List Char) : ∀ l : List Char, startsSeq n l = true ↔ n <+: l := by
  induction n with
  | nil => intro l; simp [startsSeq]
  | cons a as ih =>
    intro l
    cases l with
    | nil => simp [startsSeq]
    | cons b bs =>
      simp [startsSeq, ih, List.cons_prefix_cons, Bool.and_eq_true, beq_iff_eq]

theorem containsSeq_iff (n : List Char) : ∀ l : List Char, containsSeq n l = true ↔ n <:+: l := by
  intro l
  induction l with
  | nil =>
    simp [containsSeq, startsSeq_iff]
  | cons c t ih =>
    simp only [containsSeq, Bool.or_eq_true, startsSeq_iff, ih, List.infix_cons_iff]

theorem endsSeq_iff (n l : List Char) : endsSeq n l = true ↔ n <:+ l := by
  rw [endsSeq, startsSeq_iff, List.reverse_prefix]

theorem containsSeq_of_suffix (n a b : List Char) (h1 : containsSeq n a = true)
    (h2 : endsSeq a b = true) : containsSeq n b = true := by
  rw [containsSeq_iff] at h1 ⊢
  rw [endsSeq_iff] at h2
  exact h1.trans h2.isInfix

theorem containsSeq_of_starts (n l : List Char) (h : startsSeq n l = true) :
    containsSeq n l = true := by
  rw [containsSeq_iff]
  exact ((startsSeq_iff n l).1 h).isInfix

theorem containsSeq_of_dropWhile (n : List Char) (p : Char → Bool) (l : List Char)
    (h : containsSeq n (l.dropWhile p) = true) : containsSeq n l = true := by
  rw [containsSeq_iff] at h ⊢
  exact h.trans (List.dropWhile_suffix p).isInfix

theorem containsSeq_of_drop (n : List Char) (k : Nat) (l : List Char)
    (h : containsSeq n (l.drop k) = true) : containsSeq n l = true := by
  rw [containsSeq_iff] at h ⊢
  exact h.trans (List.drop_suffix k l).isInfix

theorem containsSeq_cons_false (n : List Char) (c : Char) (t : List Char)
    (h : containsSeq n (c :: t) = false) : containsSeq n t = false := by
  revert h
  simp only [containsSeq, Bool.or_eq_false_iff]
  exact fun h => h.2

/-! ## Lemmas about the ts-ignore substitution -/

theorem matchTsIgnore_none_of_not_contains (prev : Option Char) (s : List Char)
    (h : containsSeq (("@ts-ignore").data) s = false) :
    FixLintAuto.matchTsIgnore prev s = none := by
  simp only [FixLintAuto.matchTsIgnore]
  split
  · split
    · next hg =>
      exfalso
      have h1 := containsSeq_of_starts _ _ (Bool.and_elim_left hg)
      have h2 := containsSeq_of_dropWhile _ isWsC _ h1
      have h3 := containsSeq_of_drop _ 2 _ h2
      rw [h] at h3
      exact Bool.false_ne_true h3
    · rfl
  · rfl

theorem matchTsIgnore_none_of_head (prev : Option Char) (c : Char) (t : List Char)
    (h : ¬(c = '/')) : FixLintAuto.matchTsIgnore prev (c :: t) = none := by
  unfold FixLintAuto.matchTsIgnore
  have hs : startsSeq (("//").data) (c :: t) = false := by
    show startsSeq ('/' :: ('/' :: [])) (c :: t) = false
    simp [startsSeq, beq_iff_eq]
    intro hc
    exact absurd hc.symm h
  rw [hs]
  rfl

theorem reSubGo_tsIgnore_id (l : List Char) (h : containsSeq (("@ts-ignore").data) l = false) :
    ∀ prev, reSubGo FixLintAuto.matchTsIgnore l prev 0 = l := by
  induction l with
  | nil => intro prev; rfl
  | cons c t ih =>
    intro prev
    have hm := matchTsIgnore_none_of_not_contains prev (c :: t) h
    have ht := containsSeq_cons_false _ c t h
    simp [reSubGo, hm, ih ht]

theorem reSubGo_cons_some (m : Option Char → List Char → Option (List Char × Nat))
    (c : Char) (cs : List Char) (prev : Option Char) (rep : List Char) (n : Nat)
    (hm : m prev (c :: cs) = some (rep, n)) :
    reSubGo m (c :: cs) prev 0
      = rep ++ reSubGo m cs (some (lastOfD c (cs.take (n - 1)))) (n - 1) := by
  simp [reSubGo, hm]

theorem reSubGo_cons_none (m : Option Char → List Char → Option (List Char × Nat))
    (c : Char) (cs : List Char) (prev : Option Char) (hm : m prev (c :: cs) = none) :
    reSubGo m (c :: cs) prev 0 = c :: reSubGo m cs (some c) 0 := by
  simp [reSubGo, hm]

theorem prevOfEnd_cons (c : Char) (pre : List Char) (prev : Option Char) :
    prevOfEnd (c :: pre) prev = prevOfEnd pre (some c) := by
  cases pre with
  | nil => rfl
  | cons d t =>
    unfold prevOfEnd
    rw [List.getLast?_cons_cons]
    cases h : (d :: t).getLast? with
    | some x => rfl
    | none =>
      exfalso
      rw [List.getLast?_eq_none_iff] at h
      cases h

theorem reSubGo_tsIgnore_scan (pre : List Char) (hp : containsSeq (("/").data) pre = false) :
    ∀ (prev : Option Char) (l : List Char),
      reSubGo FixLintAuto.matchTsIgnore (pre ++ l) prev 0
        = pre ++ reSubGo FixLintAuto.matchTsIgnore l (prevOfEnd pre prev) 0 := by
  induction pre with
  | nil => intro prev l; rfl
  | cons c pre2 ih =>
    intro prev l
    have hc : ¬(c = '/') := by
      intro hc
      subst hc
      revert hp
      simp [containsSeq, startsSeq]
    have hp2 : containsSeq (("/").data) pre2 = false := containsSeq_cons_false _ c pre2 hp
    have hm := matchTsIgnore_none_of_head prev c (pre2 ++ l) hc
    rw [List.cons_append, reSubGo_cons_none _ _ _ _ hm, ih hp2 (some c) l,
      prevOfEnd_cons, List.cons_append]

theorem reSubGo_tsIgnore_junction (t : List Char) (h3 : notWordAfter t = true)
    (prev : Option Char) :
    reSubGo FixLintAuto.matchTsIgnore ((("// @ts-ignore").data) ++ t) prev 0
      = (("// @ts-expect-error").data) ++ reSubGo FixLintAuto.matchTsIgnore t (some 'e') 0 := by
  have hm : FixLintAuto.matchTsIgnore prev
      ('/' :: ('/' :: (' ' :: ('@' :: ('t' :: ('s' :: ('-' :: ('i' :: ('g' :: ('n' :: ('o' :: ('r' :: ('e' :: t)))))))))))))
      = some ((("// @ts-expect-error").data), 13) := by
    have base : FixLintAuto.matchTsIgnore prev
        ('/' :: ('/' :: (' ' :: ('@' :: ('t' :: ('s' :: ('-' :: ('i' :: ('g' :: ('n' :: ('o' :: ('r' :: ('e' :: t)))))))))))))
        = (if notWordAfter t = true then some ((("// @ts-expect-error").data), 13) else none) := rfl
    rw [base, if_pos h3]
  show reSubGo FixLintAuto.matchTsIgnore
      ('/' :: ('/' :: (' ' :: ('@' :: ('t' :: ('s' :: ('-' :: ('i' :: ('g' :: ('n' :: ('o' :: ('r' :: ('e' :: t)))))))))))))
      prev 0 = _
  rw [reSubGo_cons_some _ _ _ _ _ _ hm]
  rfl

/-- C8: the suppression-directive rule of src/fix-lint-auto.py rewrites a line
containing the directive so that the token // @ts-ignore becomes
// @ts-expect-error, and the trailing comment text after the directive is
preserved verbatim.  The leading text may be anything without a slash, the
trailing text anything that does not itself start a word character (the
pattern's word boundary) and does not contain another directive. -/
theorem tsIgnore_swap_preserves_trailing (pre t : String)
    (h1 : containsSeq (("/").data) pre.data = false)
    (h2 : containsSeq (("@ts-ignore").data) t.data = false)
    (h3 : notWordAfter t.data = true) :
    FixLintAuto.subTsIgnore (pre ++ "// @ts-ignore" ++ t)
      = pre ++ "// @ts-expect-error" ++ t := by
  unfold FixLintAuto.subTsIgnore reSubS reSubL
  have hd : (pre ++ "// @ts-ignore" ++ t).data
      = pre.data ++ ((("// @ts-ignore").data) ++ t.data) := by
    show (pre.data ++ ("// @ts-ignore").data) ++ t.data = _
    rw [List.append_assoc]
  rw [hd, reSubGo_tsIgnore_scan pre.data h1 none ((("// @ts-ignore").data) ++ t.data),
      reSubGo_tsIgnore_junction t.data h3 _, reSubGo_tsIgnore_id t.data h2 _]
  show String.mk (pre.data ++ ((("// @ts-expect-error").data) ++ t.data))
      = pre ++ "// @ts-expect-error" ++ t
  rw [← List.append_assoc]
  rfl

/-- C8 witness: instantiating the suppression-directive theorem at the
concrete line "// @ts-ignore some note". -/
theorem tsIgnore_swap_preserves_trailing_witness :
    containsSeq (("/").data) ("").data = false ∧
    containsSeq (("@ts-ignore").data) (" some note").data = false ∧
    notWordAfter (" some note").data = true ∧
    FixLintAuto.subTsIgnore "// @ts-ignore some note" = "// @ts-expect-error some note" := by
  refine ⟨by decide, by decide, by decide, ?_⟩
  exact tsIgnore_swap_preserves_trailing "" " some note" (by decide) (by decide) (by decide)

/-- C1 counterexample: applying the dynamic-require rule of
src/fix-lint-auto.py twice to a file consisting of one require declaration
is not the same as applying it once, and likewise for the whole fix_file
pipeline — the rule set is not idempotent. -/
theorem requireRule_not_idempotent :
    FixLintAuto.subRequire (FixLintAuto.subRequire "const x = require(\x27y\x27);")
      ≠ FixLintAuto.subRequire "const x = require(\x27y\x27);" ∧
    FixLintAuto.applyAuto (FixLintAuto.applyAuto "const x = require(\x27y\x27);")
      ≠ FixLintAuto.applyAuto "const x = require(\x27y\x27);" := by
  constructor
  · decide
  · decide

/-- C1 amended: the dynamic-require rule has no already-present-directive
guard, so running the rewriter a second time over the same file inserts the
eslint-disable-next-line directive a second time, duplicating the disable
comment. -/
theorem requireRule_second_run_duplicates :
    FixLintAuto.applyAuto (FixLintAuto.applyAuto "const x = require(\x27y\x27);")
      = "// eslint-disable-next-line @typescript-eslint/no-var-requires\n// eslint-disable-next-line @typescript-eslint/no-var-requires\nconst x = require(\x27y\x27);" := by
  rfl

/-- C2 counterexample: the any-narrowing rule of src/fix-lint-auto.py (which
has no lookahead excluding any arrays) rewrites "x: any[]" to
"x: unknown[]" instead of leaving it unchanged. -/
theorem autoAnyRule_rewrites_any_array :
    FixLintAuto.subAnyAuto "x: any[]" = "x: unknown[]" ∧
    FixLintAuto.subAnyAuto "x: any[]" ≠ "x: any[]" := by
  constructor
  · rfl
  · decide

/-- C2 amended: fix_any_types in src/fix-lint-comprehensive.py rewrites
"x: any" to "x: unknown" and leaves "x: any[]" unchanged; the corresponding
rule in src/fix-lint-auto.py lacks the array exclusion and rewrites
"x: any[]" to "x: unknown[]". -/
theorem anyNarrowing_scope_split :
    FixLintComprehensive.fixAnyTypes "x: any" = "x: unknown" ∧
    FixLintComprehensive.fixAnyTypes "x: any[]" = "x: any[]" ∧
    FixLintAuto.subAnyAuto "x: any[]" = "x: unknown[]" := by
  refine ⟨?_, ?_, ?_⟩
  · rfl
  · rfl
  · rfl

/-- C3 counterexample: neither src/fix-lint-comprehensive.py fix_file (which
applies fix_any_types) nor src/fix-lint-auto.py fix_file produces the output
claimed by the specification — the "as any" assertion is not narrowed by
either script. -/
theorem scenario_as_any_not_narrowed :
    FixLintComprehensive.fixAnyTypes "function f(x: any): any \x7b return x as any; \x7d"
      ≠ "function f(x: unknown): unknown \x7b return x as unknown; \x7d" ∧
    FixLintAuto.applyAuto "function f(x: any): any \x7b return x as any; \x7d"
      ≠ "function f(x: unknown): unknown \x7b return x as unknown; \x7d" := by
  constructor
  · decide
  · decide

/-- C3 amended: on the scenario input, src/fix-lint-comprehensive.py narrows
the parameter annotation and the return-type annotation but leaves the
"as any" assertion unchanged; src/fix-lint-auto.py narrows only the
parameter annotation. -/
theorem scenario_actual_outputs :
    FixLintComprehensive.fixAnyTypes "function f(x: any): any \x7b return x as any; \x7d"
      = "function f(x: unknown): unknown \x7b return x as any; \x7d" ∧
    FixLintAuto.applyAuto "function f(x: any): any \x7b return x as any; \x7d"
      = "function f(x: unknown): any \x7b return x as any; \x7d" := by
  constructor
  · rfl
  · rfl

/-- C7 counterexample: a lint-output text whose absolute .ts path line is
followed by a location-and-error line but recurs later produces zero records
attached to that path, not exactly one — the parser resets the record list
of a path every time its path line is seen. -/
theorem parser_repeated_path_resets :
    FixLintComprehensive.getLintErrorsComp ["/a.ts", "  1:1  error  x", "/a.ts"]
      = [("/a.ts", [])] := by
  rfl

/-- C6 counterexample: in src/fix-lint.py there is no per-file exception
handling, so a single file whose read fails aborts the whole run — the
second file with errors is never processed. -/
theorem fixlint_read_failure_aborts_run :
    FixLint.mainFix
      ["/Users/a.ts", "  1:1  error  no-unused-vars x",
       "/Users/b.ts", "  2:2  error  no-unused-vars y"]
      (fun p => if p = "/Users/a.ts" then Except.error "Permission denied"
                else Except.ok "const screen = 1;")
      = Except.error "Permission denied" := by
  rfl

/-- C4 counterexample: src/fix-lint.py fix_unused_vars returns True and
writes the file even though the written content is byte-identical to what it
read — the modified flag is set although the substitution changed nothing. -/
theorem fixUnusedVars_noop_write :
    FixLint.fixUnusedVarsC "import \x7b foo \x7d from \x22x\x22;"
      [⟨"/Users/a.ts", "1:1",
        "  1:1  error  no-unused-vars \x27screen\x27 is defined but never used"⟩]
      = Except.ok (some "import \x7b foo \x7d from \x22x\x22;", true) := by
  rfl

/-- C6 amended: in src/fix-lint-auto.py and src/fix-lint-comprehensive.py a
per-file failure is caught by the try/except in fix_file, reported on the
error stream together with the file path, produces no write, and the run
continues with every other file unchanged. -/
theorem perFile_failure_isolated (xs : List (String × Except String String))
    (fp e : String) (ys : List (String × Except String String)) :
    FixLintAuto.runAuto (xs ++ (fp, Except.error e) :: ys)
      = FixLintAuto.runAuto xs
        ++ ⟨false, none, some ("Error processing " ++ fp ++ ": " ++ e)⟩
          :: FixLintAuto.runAuto ys ∧
    FixLintComprehensive.runComp (xs ++ (fp, Except.error e) :: ys)
      = FixLintComprehensive.runComp xs
        ++ ⟨false, none, some ("Error fixing " ++ fp ++ ": " ++ e)⟩
          :: FixLintComprehensive.runComp ys := by
  constructor
  · simp [FixLintAuto.runAuto, FixLintAuto.fixFileAuto]
  · simp [FixLintComprehensive.runComp, FixLintComprehensive.fixFileComp]

/-- C9: when the parsed lint output yields zero error records, the
message-driven entry point of src/fix-lint.py reports "No errors found!",
performs no file writes, and returns the success status 0. -/
theorem mainFix_no_errors (lines : List String) (fs : String → Except String String)
    (h : FixLint.getLintErrorsF lines = []) :
    FixLint.mainFix lines fs
      = Except.ok ⟨0, [], ["Analyzing lint errors...", "No errors found!"]⟩ := by
  simp [FixLint.mainFix, h]

/-- C9 witness: an output with no path or error lines parses to zero records
and the run exits 0 with no writes, for an arbitrary (even unreadable) file
system. -/
theorem mainFix_no_errors_witness :
    FixLint.getLintErrorsF ["", ""] = [] ∧
    FixLint.mainFix ["", ""] (fun _ => Except.error "unreadable")
      = Except.ok ⟨0, [], ["Analyzing lint errors...", "No errors found!"]⟩ := by
  refine ⟨by rfl, ?_⟩
  exact mainFix_no_errors ["", ""] (fun _ => Except.error "unreadable") (by rfl)

/-- C5: a file whose name contains .test., .stories., or __tests__ is
skipped during traversal by both glob-based rewriters before any read or
write, whatever its content would have been (the comprehensive script checks
the whole path string, of which the name is a suffix). -/
theorem excluded_files_never_processed (name path : String)
    (r1 r2 : Except String String)
    (h : pyInS ".test." name = true ∨ pyInS ".stories." name = true ∨
      pyInS "__tests__" name = true)
    (hsuf : endsWithS path name = true) :
    FixLintAuto.processFileAuto name r1 = none ∧
    FixLintComprehensive.processFileComp path r2 = none := by
  have hA : FixLintAuto.excludedAuto name = true := by
    unfold FixLintAuto.excludedAuto
    rcases h with h | h | h <;> simp [h]
  have hs : ∀ tok : String, pyInS tok name = true → pyInS tok path = true := by
    intro tok htok
    unfold pyInS at htok ⊢
    unfold endsWithS at hsuf
    exact containsSeq_of_suffix _ _ _ htok hsuf
  have hC : FixLintComprehensive.excludedComp path = true := by
    unfold FixLintComprehensive.excludedComp
    rcases h with h | h | h <;> simp [hs _ h]
  constructor
  · unfold FixLintAuto.processFileAuto
    simp [hA]
  · unfold FixLintComprehensive.processFileComp
    simp [hC]

/-- C5 witness: the concrete test file foo.test.ts inside an included glob is
skipped by both traversals even though its content matches a rewrite rule. -/
theorem excluded_files_never_processed_witness :
    (pyInS ".test." "foo.test.ts" = true ∨ pyInS ".stories." "foo.test.ts" = true ∨
      pyInS "__tests__" "foo.test.ts" = true) ∧
    endsWithS "/src/components/foo.test.ts" "foo.test.ts" = true ∧
    FixLintAuto.processFileAuto "foo.test.ts" (Except.ok "x: any") = none ∧
    FixLintComprehensive.processFileComp "/src/components/foo.test.ts"
      (Except.ok "x: any") = none := by
  refine ⟨Or.inl (by decide), by decide, ?_⟩
  exact excluded_files_never_processed "foo.test.ts" "/src/components/foo.test.ts"
    (Except.ok "x: any") (Except.ok "x: any") (Or.inl (by decide)) (by decide)

/-- C7 amended: a lint output consisting of a non-excluded absolute .ts path
line (appearing once) immediately followed by a non-path line containing a
location token (colon) and the word error produces exactly one record,
attached to that path; further error lines would each append another record,
and a repeated path line resets the list (separate counterexample). -/
theorem parser_pair_single_record (p e : String)
    (h1 : pyInS "__tests__" p = false) (h2 : pyInS ".test." p = false)
    (h3 : pyInS ".stories." p = false)
    (h4 : startsWithS p "/" = true) (h5 : endsWithS p ".ts" = true)
    (h6 : pyStrip p = p) (h7 : (p == "") = false)
    (h8 : pyInS "__tests__" e = false) (h9 : pyInS ".test." e = false)
    (h10 : pyInS ".stories." e = false) (h11 : startsWithS e "/" = false)
    (h12 : pyInS ":" e = true) (h13 : pyInS "error" e = true) :
    FixLintComprehensive.getLintErrorsComp [p, e] = [(p, [pyStrip e])] := by
  have s1 : FixLintComprehensive.compStep (none, []) p = (some p, [(p, [])]) := by
    unfold FixLintComprehensive.compStep
    simp [h1, h2, h3, h4, h5, h6, FixLintComprehensive.updAssoc]
  have s2 : FixLintComprehensive.compStep (some p, [(p, [])]) e
      = (some p, [(p, [pyStrip e])]) := by
    unfold FixLintComprehensive.compStep
    simp [h8, h9, h10, h11, h12, h13, h7, FixLintComprehensive.appendAssoc]
  simp [FixLintComprehensive.getLintErrorsComp, s1, s2]

/-- C7 witness: a concrete two-line lint output with one absolute .ts path
line followed by one error line yields exactly one record for that path. -/
theorem parser_pair_single_record_witness :
    pyInS ":" "  12:5  error  no-explicit-any" = true ∧
    FixLintComprehensive.getLintErrorsComp
      ["/Users/proj/a.ts", "  12:5  error  no-explicit-any"]
      = [("/Users/proj/a.ts", ["12:5  error  no-explicit-any"])] := by
  refine ⟨by decide, ?_⟩
  have h := parser_pair_single_record "/Users/proj/a.ts" "  12:5  error  no-explicit-any"
    (by decide) (by decide) (by decide) (by decide) (by decide) (by decide) (by decide)
    (by decide) (by decide) (by decide) (by decide) (by decide) (by decide)
  rw [h]
  rfl

theorem runAutoWrites_map_fst_sublist (files : List (String × Except String String)) :
    List.Sublist ((FixLintAuto.runAutoWrites files).map Prod.fst) (files.map Prod.fst) := by
  induction files with
  | nil => simp [FixLintAuto.runAutoWrites]
  | cons f t ih =>
    simp only [FixLintAuto.runAutoWrites, List.filterMap_cons] at ih ⊢
    cases h : (FixLintAuto.fixFileAuto f.1 f.2).write with
    | none => simpa [h] using ih.cons f.1
    | some w => simpa [h] using ih.cons₂ f.1

theorem runCompWrites_map_fst_sublist (files : List (String × Except String String)) :
    List.Sublist ((FixLintComprehensive.runCompWrites files).map Prod.fst)
      (files.map Prod.fst) := by
  induction files with
  | nil => simp [FixLintComprehensive.runCompWrites]
  | cons f t ih =>
    simp only [FixLintComprehensive.runCompWrites, List.filterMap_cons] at ih ⊢
    cases h : (FixLintComprehensive.fixFileComp f.1 f.2).write with
    | none => simpa [h] using ih.cons f.1
    | some w => simpa [h] using ih.cons₂ f.1

/-- C4 amended, positive part for the glob-based rewriters: in one run of
src/fix-lint-auto.py or src/fix-lint-comprehensive.py over files with
distinct paths, each file is written at most once, and every write is
exactly the script's rule-pipeline output on the text that was read and
differs byte-for-byte from it; an unchanged file produces no write and is
excluded from the report (src/fix-lint.py violates this, see the separate
counterexample). -/
theorem writes_unique_and_only_if_changed (files : List (String × Except String String))
    (h : (files.map Prod.fst).Nodup) :
    (((FixLintAuto.runAutoWrites files).map Prod.fst).Nodup ∧
      ∀ p w, (p, w) ∈ FixLintAuto.runAutoWrites files →
        ∃ c, (p, Except.ok c) ∈ files ∧ w = FixLintAuto.applyAuto c ∧ w ≠ c) ∧
    (((FixLintComprehensive.runCompWrites files).map Prod.fst).Nodup ∧
      ∀ p w, (p, w) ∈ FixLintComprehensive.runCompWrites files →
        ∃ c, (p, Except.ok c) ∈ files ∧ w = FixLintComprehensive.fixAnyTypes c ∧ w ≠ c) := by
  refine ⟨⟨?_, ?_⟩, ?_, ?_⟩
  · exact List.Nodup.sublist (runAutoWrites_map_fst_sublist files) h
  · intro p w hw
    simp only [FixLintAuto.runAutoWrites, List.mem_filterMap] at hw
    obtain ⟨⟨p2, r⟩, hmem, heq⟩ := hw
    cases r with
    | error e => simp [FixLintAuto.fixFileAuto] at heq
    | ok c =>
      by_cases hc : FixLintAuto.applyAuto c = c
      · simp [FixLintAuto.fixFileAuto, hc] at heq
      · simp only [FixLintAuto.fixFileAuto, if_neg hc, Option.map_some'] at heq
        have hp : p2 = p := congrArg Prod.fst (Option.some.inj heq)
        have hwv : FixLintAuto.applyAuto c = w := congrArg Prod.snd (Option.some.inj heq)
        subst hp
        subst hwv
        exact ⟨c, hmem, rfl, hc⟩
  · exact List.Nodup.sublist (runCompWrites_map_fst_sublist files) h
  · intro p w hw
    simp only [FixLintComprehensive.runCompWrites, List.mem_filterMap] at hw
    obtain ⟨⟨p2, r⟩, hmem, heq⟩ := hw
    cases r with
    | error e => simp [FixLintComprehensive.fixFileComp] at heq
    | ok c =>
      by_cases hc : FixLintComprehensive.fixAnyTypes c = c
      · simp [FixLintComprehensive.fixFileComp, hc] at heq
      · simp only [FixLintComprehensive.fixFileComp, if_neg hc, Option.map_some'] at heq
        have hp : p2 = p := congrArg Prod.fst (Option.some.inj heq)
        have hwv : FixLintComprehensive.fixAnyTypes c = w :=
          congrArg Prod.snd (Option.some.inj heq)
        subst hp
        subst hwv
        exact ⟨c, hmem, rfl, hc⟩

/-- C4 witness: a two-file run in which one file changes and the other fails
to read yields, in both glob-based rewriters, writes whose path list is
duplicate-free. -/
theorem writes_unique_and_only_if_changed_witness :
    (([("a.ts", Except.ok "x: any"), ("b.ts", Except.error "gone")].map Prod.fst).Nodup) ∧
    ((FixLintAuto.runAutoWrites
        [("a.ts", Except.ok "x: any"), ("b.ts", Except.error "gone")]).map Prod.fst).Nodup ∧
    ((FixLintComprehensive.runCompWrites
        [("a.ts", Except.ok "x: any"), ("b.ts", Except.error "gone")]).map Prod.fst).Nodup := by
  refine ⟨by decide, ?_, ?_⟩
  · exact ((writes_unique_and_only_if_changed
      [("a.ts", Except.ok "x: any"), ("b.ts", Except.error "gone")] (by decide)).1).1
  · exact ((writes_unique_and_only_if_changed
      [("a.ts", Except.ok "x: any"), ("b.ts", Except.error "gone")] (by decide)).2).1

theorem stepErr_ok (lines : List String) (mod : Bool) (e : FixLint.ErrRec)
    (h : (!(pyInS "no-unused-vars" e.line) ||
      (match FixLint.locLineNum e.location with
       | some n => decide (1 ≤ n ∧ n ≤ (lines.length : Int))
       | none => false)) = true) :
    ∃ lines2 mod2, FixLint.stepErr (Except.ok (lines, mod)) e = Except.ok (lines2, mod2) ∧
      lines2.length = lines.length ∧
      ∀ i : Nat, (!(pyInS "no-unused-vars" e.line) ||
          !(FixLint.locLineNum e.location == some ((i : Int) + 1))) = true →
        lines2.get? i = lines.get? i := by
  by_cases hrel : pyInS "no-unused-vars" e.line = true
  case neg =>
    have hrel2 : pyInS "no-unused-vars" e.line = false := by
      cases hb : pyInS "no-unused-vars" e.line
      · rfl
      · exact absurd hb hrel
    refine ⟨lines, mod, ?_, rfl, fun i _ => rfl⟩
    unfold FixLint.stepErr
    simp [hrel2]
  case pos =>
    rw [hrel] at h
    simp only [Bool.not_true, Bool.false_or] at h
    cases hloc : FixLint.locLineNum e.location with
    | none =>
      rw [hloc] at h
      exact absurd h (by simp)
    | some n =>
      rw [hloc] at h
      have hb : 1 ≤ n ∧ n ≤ (lines.length : Int) := of_decide_eq_true h
      have hlt : n - 1 < (lines.length : Int) := by omega
      have hge : (0 : Int) ≤ n - 1 := by omega
      have hidx : FixLint.pyIdx lines.length (n - 1) = some (n - 1).toNat := by
        unfold FixLint.pyIdx
        rw [if_pos hge, if_pos hlt]
      have hk : (n - 1).toNat < lines.length := by omega
      have hget : lines.get? (n - 1).toNat = some (lines.get ⟨(n - 1).toNat, hk⟩) :=
        List.get?_eq_get hk
      have hframe : ∀ (v : String) (i : Nat),
          (!(true : Bool) || !((some n : Option Int) == some ((i : Int) + 1))) = true →
          (lines.set (n - 1).toNat v).get? i = lines.get? i := by
        intro v i hi
        simp only [Bool.not_true, Bool.false_or] at hi
        have hne : ¬(n = (i : Int) + 1) := by
          intro hcontra
          rw [hcontra] at hi
          simp at hi
        have hik : (n - 1).toNat ≠ i := by omega
        rw [List.get?_eq_getElem?, List.get?_eq_getElem?, List.getElem?_set_ne hik]
      unfold FixLint.stepErr
      simp only [hrel, if_true, hloc, hidx, hget]
      rw [if_pos hlt]
      split
      · exact ⟨_, _, rfl, List.length_set .., hframe _⟩
      · split
        · exact ⟨_, _, rfl, List.length_set .., hframe _⟩
        · split
          · exact ⟨_, _, rfl, List.length_set .., hframe _⟩
          · split
            · exact ⟨_, _, rfl, List.length_set .., hframe _⟩
            · exact ⟨lines, mod, rfl, rfl, fun i _ => rfl⟩

theorem fixUnusedVars_fold_frame (errors : List FixLint.ErrRec) :
    ∀ (lines : List String) (mod : Bool),
      errsInRange errors lines.length = true →
      ∃ lines2 mod2,
        errors.foldl FixLint.stepErr (Except.ok (lines, mod)) = Except.ok (lines2, mod2) ∧
        lines2.length = lines.length ∧
        ∀ i, notReported errors i = true → lines2.get? i = lines.get? i := by
  induction errors with
  | nil =>
    intro lines mod _
    exact ⟨lines, mod, rfl, rfl, fun i _ => rfl⟩
  | cons e es ih =>
    intro lines mod h
    unfold errsInRange at h
    rw [List.all_cons, Bool.and_eq_true] at h
    obtain ⟨he, hes⟩ := h
    obtain ⟨l1, m1, hstep, hlen1, hframe1⟩ := stepErr_ok lines mod e he
    have hes2 : errsInRange es l1.length = true := by
      unfold errsInRange
      rw [hlen1]
      exact hes
    obtain ⟨l2, m2, hfold, hlen2, hframe2⟩ := ih l1 m1 hes2
    refine ⟨l2, m2, ?_, ?_, ?_⟩
    · rw [List.foldl_cons, hstep]
      exact hfold
    · rw [hlen2, hlen1]
    · intro i hi
      unfold notReported at hi
      rw [List.all_cons, Bool.and_eq_true] at hi
      calc l2.get? i = l1.get? i := hframe2 i (by unfold notReported; exact hi.2)
        _ = lines.get? i := hframe1 i hi.1

/-- C10: for a file's line list and matched no-unused-vars error records
whose reported 1-based line numbers all lie within the file, fix_unused_vars
of src/fix-lint.py succeeds, preserves the number of lines, and changes at
most the lines at the reported numbers: every line whose number is not
reported by any record is preserved verbatim. -/
theorem fixUnusedVars_frame (lines : List String) (errors : List FixLint.ErrRec)
    (h : errsInRange errors lines.length = true) :
    ∃ lines2 mod2,
      FixLint.fixUnusedVarsLines lines errors = Except.ok (lines2, mod2) ∧
      lines2.length = lines.length ∧
      ∀ i, notReported errors i = true → lines2.get? i = lines.get? i :=
  fixUnusedVars_fold_frame errors lines false h

/-- C10 witness: a three-line file with one in-range container record keeps
line 1 (index 0) verbatim. -/
theorem fixUnusedVars_frame_witness :
    errsInRange
      [⟨"/Users/a.ts", "2:7",
        "  2:7  error  no-unused-vars \x27container\x27 is assigned a value but never used"⟩]
      (["const a = 1;", "const container = 2;", "const c = 3;"].length) = true ∧
    notReported
      [⟨"/Users/a.ts", "2:7",
        "  2:7  error  no-unused-vars \x27container\x27 is assigned a value but never used"⟩]
      0 = true ∧
    (resLines
      (FixLint.fixUnusedVarsLines ["const a = 1;", "const container = 2;", "const c = 3;"]
        [⟨"/Users/a.ts", "2:7",
          "  2:7  error  no-unused-vars \x27container\x27 is assigned a value but never used"⟩])
      ["const a = 1;", "const container = 2;", "const c = 3;"]).get? 0
      = (["const a = 1;", "const container = 2;", "const c = 3;"] : List String).get? 0 := by
  refine ⟨by decide, by decide, ?_⟩
  obtain ⟨l2, m2, heq, hlen, hframe⟩ := fixUnusedVars_frame
    ["const a = 1;", "const container = 2;", "const c = 3;"]
    [⟨"/Users/a.ts", "2:7",
      "  2:7  error  no-unused-vars \x27container\x27 is assigned a value but never used"⟩]
    (by decide)
  rw [heq]
  exact hframe 0 (by decide)
